import Mathlib

/-!
Verification of the battle-city-clone core logic against its specification.

The definitions below are a shallow embedding of the Python source:
`src/utils/constants.py`, `src/core/tank.py`, `src/core/bullet.py`,
`src/core/tile.py`, `src/core/enemy_tank.py`, `src/core/player_tank.py`,
`src/states/game_state.py`, `src/managers/collision_manager.py` and
`src/managers/game_manager.py`.  Positions are rationals (Python floats are
only added, subtracted and compared here, so the embedding is exact on the
values the game produces), machine integers are `Int`/`Nat`, and
`random.choice` is modelled by an explicit index into the choice list.
-/

namespace BattleCity

/-! ### Constants (src/utils/constants.py) -/

def SCALE : ℤ := 2

def SOURCE_TILE_SIZE : ℤ := 16

def TILE_SIZE : ℤ := SOURCE_TILE_SIZE * SCALE

def GRID_WIDTH : ℤ := 16

def GRID_HEIGHT : ℤ := 16

def FPS : ℤ := 60

def TANK_SPEED : ℚ := 12

def TANK_WIDTH : ℤ := TILE_SIZE

def TANK_HEIGHT : ℤ := TILE_SIZE

def BULLET_SPEED : ℚ := 3 * (SCALE : ℚ)

def BULLET_WIDTH : ℤ := 4 * SCALE

def BULLET_HEIGHT : ℤ := 4 * SCALE

/-! ### Python numeric helpers -/

/-- Python `int(x)` on a float truncates toward zero. -/
def pyInt (q : ℚ) : ℤ := q.num / (q.den : ℤ)

/-- Python `round(x)` rounds half to even (banker's rounding). -/
def pyRound (q : ℚ) : ℤ :=
  let f : ℤ := ⌊q⌋
  let r : ℚ := q - (f : ℚ)
  if r < 1 / 2 then f
  else if 1 / 2 < r then f + 1
  else if f % 2 = 0 then f else f + 1

/-- Python `a % b` on floats: the result has the sign of the divisor
(`a - b * floor (a / b)`).  Used to state the grid-alignment property
`position.x % tile_size == 0`. -/
def ratMod (a b : ℚ) : ℚ := a - b * (⌊a / b⌋ : ℚ)

/-! ### Directions -/

/-- The four facing directions, `"up" | "down" | "left" | "right"` strings in
the source. -/
inductive Direction where
  | up
  | down
  | left
  | right
  deriving DecidableEq

/-- The `opposite_direction` dictionary of `EnemyTank._change_direction`. -/
def oppositeDirection (d : Direction) : Direction :=
  match d with
  | .up => .down
  | .down => .up
  | .left => .right
  | .right => .left

/-! ### Rectangles (pygame.Rect) -/

/-- `pygame.Rect`: integer position and size; `left = x`, `right = x + w`,
`top = y`, `bottom = y + h`. -/
structure Rect where
  x : ℤ
  y : ℤ
  w : ℤ
  h : ℤ
  deriving DecidableEq

/-- `Rect.colliderect`: true when some portion of the rectangles overlaps
(the pygame test `a.x < b.x + b.w and a.x + a.w > b.x and a.y < b.y + b.h
and a.y + a.h > b.y`). -/
def Rect.colliderect (a b : Rect) : Bool :=
  decide (a.x < b.x + b.w) && decide (b.x < a.x + a.w) &&
  decide (a.y < b.y + b.h) && decide (b.y < a.y + a.h)

/-! ### Tank (src/core/tank.py), with the extra fields that
`EnemyTank.__init__` (src/core/enemy_tank.py) and `PlayerTank.__init__`
(src/core/player_tank.py) add on top of the shared state.  `cls` records the
Python runtime class, used by the `isinstance` dispatch in the resolver. -/

/-- Which runtime class a tank object has: `PlayerTank`, `EnemyTank`, or the
base `Tank`. -/
inductive TankClass where
  | playerTank
  | enemyTank
  | baseTank
  deriving DecidableEq

structure Tank where
  x : ℚ
  y : ℚ
  prev_x : ℚ
  prev_y : ℚ
  width : ℤ
  height : ℤ
  rect_x : ℤ
  rect_y : ℤ
  direction : Direction
  speed : ℚ
  health : ℤ
  max_health : ℤ
  lives : ℤ
  owner_type : String
  cls : TankClass
  move_timer : ℚ
  move_delay : ℚ
  target_position : ℚ × ℚ
  is_invincible : Bool
  invincibility_timer : ℚ
  invincibility_duration : ℚ
  blink_timer : ℚ
  animation_frame : ℤ
  direction_timer : ℚ
  direction_change_interval : ℚ
  initial_x : ℚ
  initial_y : ℚ
  respawn_timer : ℚ
  deriving DecidableEq

/-- `Tank.__init__`: the state after constructing a base `Tank` at `(x, y)`. -/
def Tank.init (x y : ℚ) (health lives : ℤ) (speed : ℚ) : Tank :=
  { x := x
    y := y
    prev_x := x
    prev_y := y
    width := TANK_WIDTH
    height := TANK_HEIGHT
    rect_x := pyInt x
    rect_y := pyInt y
    direction := .up
    speed := speed
    health := health
    max_health := health
    lives := lives
    owner_type := "base_tank"
    cls := .baseTank
    move_timer := 0
    move_delay := 0.15
    target_position := (x, y)
    is_invincible := false
    invincibility_timer := 0
    invincibility_duration := 0
    blink_timer := 0
    animation_frame := 1
    direction_timer := 0
    direction_change_interval := 0
    initial_x := x
    initial_y := y
    respawn_timer := 0 }

/-- `Tank.take_damage(amount)`: returns the updated tank and whether it was
destroyed. -/
def Tank.take_damage (t : Tank) (amount : ℤ) : Tank × Bool :=
  if t.is_invincible then (t, false)
  else
    let t1 := { t with health := max 0 (t.health - amount) }
    if t1.health ≤ 0 then
      let t2 := { t1 with lives := t1.lives - 1 }
      if 0 < t2.lives then ({ t2 with health := t2.max_health }, false)
      else (t2, true)
    else (t1, false)

/-- `Tank._move(dx, dy)`: rejected when the cadence timer has not elapsed or
both deltas are nonzero; otherwise advances by `d * speed` on each axis,
resets the timer, toggles the animation frame and syncs the rect. -/
def Tank.move (t : Tank) (dx dy : ℤ) : Tank × Bool :=
  if t.move_timer < t.move_delay then (t, false)
  else if dx ≠ 0 ∧ dy ≠ 0 then (t, false)
  else
    let target_x := t.x + (dx : ℚ) * t.speed
    let target_y := t.y + (dy : ℚ) * t.speed
    ({ t with
        x := target_x
        y := target_y
        target_position := (target_x, target_y)
        move_timer := 0
        animation_frame := 3 - t.animation_frame
        rect_x := pyRound target_x
        rect_y := pyRound target_y }, true)

/-- `Tank.revert_move(obstacle_rect)`: with an obstacle rect, snap flush
against it along the current direction; otherwise restore
`(prev_x, prev_y)`.  Both modes sync the rect and `target_position`. -/
def Tank.revert_move (t : Tank) (obstacle_rect : Option Rect) : Tank :=
  match obstacle_rect with
  | some r =>
    let snapped_x : ℚ :=
      if t.direction = .right then ((r.x - t.width : ℤ) : ℚ)
      else if t.direction = .left then ((r.x + r.w : ℤ) : ℚ)
      else t.x
    let snapped_y : ℚ :=
      if t.direction = .down then ((r.y - t.height : ℤ) : ℚ)
      else if t.direction = .up then ((r.y + r.h : ℤ) : ℚ)
      else t.y
    { t with
        x := snapped_x
        y := snapped_y
        rect_x := pyRound snapped_x
        rect_y := pyRound snapped_y
        target_position := (snapped_x, snapped_y) }
  | none =>
    { t with
        x := t.prev_x
        y := t.prev_y
        rect_x := pyRound t.prev_x
        rect_y := pyRound t.prev_y
        target_position := (t.prev_x, t.prev_y) }

/-- The per-frame part of `Tank.update(dt)` that touches the tank itself:
captures `prev_position` before any movement this frame, advances the
invincibility and movement timers, and syncs the rect.  (The recursive
bullet update is handled at world level.) -/
def Tank.update (t : Tank) (dt : ℚ) : Tank :=
  let t1 := { t with prev_x := t.x, prev_y := t.y }
  let t2 :=
    if t1.is_invincible then
      let ti := t1.invincibility_timer + dt
      let tb := t1.blink_timer + dt
      if t1.invincibility_duration ≤ ti then
        { t1 with is_invincible := false, invincibility_timer := 0, blink_timer := tb }
      else
        { t1 with invincibility_timer := ti, blink_timer := tb }
    else t1
  { t2 with
      move_timer := t2.move_timer + dt
      rect_x := pyInt t2.x
      rect_y := pyInt t2.y }

/-- `EnemyTank._change_direction`: pick a direction that is not the reverse
of the current one.  `random.choice` is modelled by the explicit index `k`
into the candidate list (`possible_directions` always has three entries, so
the Python fallback branch below the first `return` is dead code). -/
def EnemyTank.change_direction (d : Direction) (k : ℕ) : Direction :=
  let directions : List Direction := [.up, .down, .left, .right]
  let possible := directions.filter (fun x => x ≠ oppositeDirection d)
  possible.getD (k % possible.length) d

/-- `PlayerTank.respawn` (src/core/player_tank.py): when lives remain,
consume one, return to the initial position, grant invincibility and face
up. -/
def PlayerTank.respawn (t : Tank) : Tank :=
  if 0 < t.lives then
    { t with
        lives := t.lives - 1
        x := t.initial_x
        y := t.initial_y
        is_invincible := true
        respawn_timer := 0
        blink_timer := 0
        direction := .up }
  else t

/-! ### Tiles (src/core/tile.py) -/

/-- `TileType` enum. -/
inductive TileType where
  | EMPTY
  | BRICK
  | STEEL
  | WATER
  | BUSH
  | ICE
  | BASE
  | BASE_DESTROYED
  deriving DecidableEq

/-! ### Game state (src/states/game_state.py)

The enum defines exactly three members; there is no `EXIT` member, although
`game_manager.py` refers to `GameState.EXIT` in `_quit_game` and in the main
loop. -/

inductive GameState where
  | RUNNING
  | GAME_OVER
  | VICTORY
  deriving DecidableEq

/-- Python enum attribute lookup on `GameState`: `getattr(GameState, name)`
succeeds exactly on the three declared members. -/
def GameState.lookup (name : String) : Option GameState :=
  if name = "RUNNING" then some .RUNNING
  else if name = "GAME_OVER" then some .GAME_OVER
  else if name = "VICTORY" then some .VICTORY
  else none

/-- `GameManager._quit_game`: executes `self.state = GameState.EXIT`.  The
attribute access `GameState.EXIT` is a lookup on the enum class; when the
member does not exist Python raises `AttributeError`. -/
def GameManager.quit_game (s : GameState) : Except String GameState :=
  match GameState.lookup "EXIT" with
  | some st => Except.ok st
  | none => Except.error "AttributeError"

/-! ### Bullet (src/core/bullet.py) -/

structure Bullet where
  x : ℚ
  y : ℚ
  width : ℤ
  height : ℤ
  rect_x : ℤ
  rect_y : ℤ
  direction : Direction
  speed : ℚ
  active : Bool
  owner_type : String
  deriving DecidableEq

/-! ### World state for the collision resolver
(`GameManager._process_collisions` and its handlers).

Objects carry Python identity; the resolver dispatches on their runtime
class, so an object reference is a class tag plus an id.  The stores map ids
to states; tiles enter the resolver only through their mutable `type`
field.  `random.choice` inside `EnemyTank._change_direction` is modelled by
the pre-sampled stream `rng` advanced by `rng_pos`.  `revert_calls` is ghost
instrumentation counting how often `Tank.revert_move` is invoked on each
tank during a pass; it affects nothing else. -/

inductive Obj where
  | bullet (i : ℕ)
  | tank (i : ℕ)
  | tile (i : ℕ)
  deriving DecidableEq

structure World where
  bullets : ℕ → Bullet
  tanks : ℕ → Tank
  tiles : ℕ → TileType
  state : GameState
  enemy_tanks : List ℕ
  enemies_to_remove : List ℕ
  rng : ℕ → ℕ
  rng_pos : ℕ
  revert_calls : ℕ → ℕ

def World.setBullet (w : World) (i : ℕ) (b : Bullet) : World :=
  { w with bullets := fun j => if j = i then b else w.bullets j }

def World.setTank (w : World) (i : ℕ) (t : Tank) : World :=
  { w with tanks := fun j => if j = i then t else w.tanks j }

def World.setTile (w : World) (i : ℕ) (ty : TileType) : World :=
  { w with tiles := fun j => if j = i then ty else w.tiles j }

/-- Ghost: record one `revert_move` invocation on tank `i`. -/
def World.bumpRevert (w : World) (i : ℕ) : World :=
  { w with revert_calls := fun j => if j = i then w.revert_calls j + 1 else w.revert_calls j }

/-- `GameManager._handle_bullet_collision(bullet, other, enemies_to_remove)`:
returns the updated world and whether the bullet was processed
(deactivated).  Mirrors the `isinstance` chain of the source. -/
def GameManager.handle_bullet_collision (w : World) (b : ℕ) (other : Obj) : World × Bool :=
  let blt := w.bullets b
  if blt.active = false then (w, false)
  else
    match other with
    | .tank j =>
      let t := w.tanks j
      if t.cls = TankClass.enemyTank ∧ blt.owner_type = "player" then
        let w1 := World.setBullet w b { blt with active := false }
        let td := Tank.take_damage t 1
        let w2 := World.setTank w1 j td.1
        let w3 :=
          if td.2 then { w2 with enemies_to_remove := w2.enemies_to_remove ++ [j] }
          else w2
        (w3, true)
      else if t.cls = TankClass.playerTank ∧ blt.owner_type = "enemy" then
        let w1 := World.setBullet w b { blt with active := false }
        if t.is_invincible = false then
          let td := Tank.take_damage t 1
          if td.2 then ({ World.setTank w1 j td.1 with state := GameState.GAME_OVER }, true)
          else (World.setTank w1 j (PlayerTank.respawn td.1), true)
        else (w1, true)
      else (w, false)
    | .tile k =>
      match w.tiles k with
      | .BRICK =>
        (World.setTile (World.setBullet w b { blt with active := false }) k .EMPTY, true)
      | .STEEL =>
        (World.setBullet w b { blt with active := false }, true)
      | .BASE =>
        ({ World.setTile (World.setBullet w b { blt with active := false }) k .BASE_DESTROYED
            with state := GameState.GAME_OVER }, true)
      | _ => (w, false)
    | .bullet c =>
      let oblt := w.bullets c
      if oblt.active = true then
        if b ≠ c then
          (World.setBullet (World.setBullet w b { blt with active := false }) c
            { oblt with active := false }, true)
        else (w, false)
      else (w, false)

/-- `GameManager._handle_tank_tank_collision`: revert both tanks, return
True. -/
def GameManager.handle_tank_tank_collision (w : World) (i j : ℕ) : World × Bool :=
  let w1 := World.setTank (World.bumpRevert w i) i (Tank.revert_move (w.tanks i) none)
  let w2 := World.setTank (World.bumpRevert w1 j) j (Tank.revert_move (w1.tanks j) none)
  (w2, true)

/-- The `impassable_types` list of `_handle_tank_tile_collision`. -/
def impassableTypes : List TileType := [.STEEL, .WATER, .BASE, .BRICK]

/-- `GameManager._handle_tank_tile_collision`: when the tile blocks
movement, revert the tank (no obstacle rect is passed), and if the tank is
an `EnemyTank`, change its direction and zero its direction timer. -/
def GameManager.handle_tank_tile_collision (w : World) (i k : ℕ) : World × Bool :=
  if w.tiles k ∈ impassableTypes then
    let t1 := Tank.revert_move (w.tanks i) none
    let w1 := World.setTank (World.bumpRevert w i) i t1
    if t1.cls = TankClass.enemyTank then
      let t2 := { t1 with
                    direction := EnemyTank.change_direction t1.direction (w1.rng w1.rng_pos)
                    direction_timer := 0 }
      (World.setTank { w1 with rng_pos := w1.rng_pos + 1 } i t2, true)
    else (w1, true)
  else (w, false)

/-- Accumulator of `_process_collisions`: the world plus the two per-frame
processed sets. -/
structure RState where
  world : World
  processed_bullets : List ℕ
  reverted_tanks : List ℕ

/-- Python `set.add`. -/
def addSet (l : List ℕ) (x : ℕ) : List ℕ := if x ∈ l then l else x :: l

/-- The bullet-selection prelude of the event loop: pick `obj_a` when it is
a not-yet-processed bullet, else `obj_b`; return the bullet id and the
other object. -/
def selectBullet (pb : List ℕ) (a b : Obj) : Option (ℕ × Obj) :=
  match a with
  | .bullet i =>
    if i ∈ pb then
      match b with
      | .bullet j => if j ∈ pb then none else some (j, a)
      | _ => none
    else some (i, b)
  | _ =>
    match b with
    | .bullet j => if j ∈ pb then none else some (j, a)
    | _ => none

/-- One iteration of the `for obj_a, obj_b in events` loop of
`GameManager._process_collisions`. -/
def GameManager.step_event (st : RState) (ev : Obj × Obj) : RState :=
  match selectBullet st.processed_bullets ev.1 ev.2 with
  | some (b, other) =>
    let res := GameManager.handle_bullet_collision st.world b other
    if res.2 then
      let pb1 := addSet st.processed_bullets b
      let pb2 :=
        match other with
        | .bullet c => addSet pb1 c
        | _ => pb1
      { world := res.1, processed_bullets := pb2, reverted_tanks := st.reverted_tanks }
    else
      { st with world := res.1 }
  | none =>
    match ev with
    | (.tank i, .tank j) =>
      if i ∉ st.reverted_tanks ∨ j ∉ st.reverted_tanks then
        let res := GameManager.handle_tank_tank_collision st.world i j
        if res.2 then
          { world := res.1
            processed_bullets := st.processed_bullets
            reverted_tanks := addSet (addSet st.reverted_tanks i) j }
        else { st with world := res.1 }
      else st
    | (.tank i, .tile k) =>
      if i ∉ st.reverted_tanks then
        let res := GameManager.handle_tank_tile_collision st.world i k
        if res.2 then { st with world := res.1, reverted_tanks := addSet st.reverted_tanks i }
        else { st with world := res.1 }
      else st
    | (.tile k, .tank j) =>
      if j ∉ st.reverted_tanks then
        let res := GameManager.handle_tank_tile_collision st.world j k
        if res.2 then { st with world := res.1, reverted_tanks := addSet st.reverted_tanks j }
        else { st with world := res.1 }
      else st
    | _ => st

/-- `GameManager._process_collisions`: fold the event list with fresh
processed sets, then remove destroyed enemies from the roster
(`list.remove` drops the first occurrence and skips absent entries). -/
def GameManager.process_collisions (w : World) (events : List (Obj × Obj)) : RState :=
  let init : RState := { world := w, processed_bullets := [], reverted_tanks := [] }
  let st := events.foldl GameManager.step_event init
  { st with world :=
      { st.world with
          enemy_tanks :=
            st.world.enemies_to_remove.foldl (fun l e => l.erase e) st.world.enemy_tanks } }

/-! ### Collision detector (src/managers/collision_manager.py)

`check_collisions` receives groups of collidable objects and appends a
collision event for every overlapping pair of a fixed list of group
pairings, in source order.  Group members are modelled as an id plus the
object's `rect`; the emitted references record which group a participant
came from, which is exactly the information the hand-enumerated pairings
encode. -/

inductive Ref where
  | playerBullet (i : ℕ)
  | enemyBullet (i : ℕ)
  | playerTank
  | enemyTank (i : ℕ)
  | destructibleTile (i : ℕ)
  | impassableTile (i : ℕ)
  | playerBase
  deriving DecidableEq

/-- One `for a in as: for b in bs: if a.rect.colliderect(b.rect): queue (a, b)`
nest. -/
def crossPairs (fa : ℕ → Ref) (fb : ℕ → Ref) (as1 bs : List (ℕ × Rect)) :
    List (Ref × Ref) :=
  as1.flatMap fun a =>
    (bs.filter fun b => Rect.colliderect a.2 b.2).map fun b => (fa a.1, fb b.1)

/-- The `for bullet in bullets: if bullet.rect.colliderect(target.rect)`
loops against a single optional target (player base / player tank). -/
def bulletsVsTarget (fa : ℕ → Ref) (tgt : Ref) (bullets : List (ℕ × Rect))
    (target : Option Rect) : List (Ref × Ref) :=
  match target with
  | some r =>
    (bullets.filter fun b => Rect.colliderect b.2 r).map fun b => (fa b.1, tgt)
  | none => []

/-- The tanks-vs-tanks sweep: `for i, tank_a in enumerate(all_tanks): for
tank_b in all_tanks[i+1:]` — structurally, each element against the rest of
the list. -/
def pairsAfter : List (Ref × Rect) → List (Ref × Ref)
  | [] => []
  | a :: rest =>
    ((rest.filter fun b => Rect.colliderect a.2 b.2).map fun b => (a.1, b.1)) ++
      pairsAfter rest

/-- The `all_tanks` list of `check_collisions`: the player tank (when
present) followed by the enemy tanks. -/
def allTanks (player_tank : Option Rect) (enemy_tanks : List (ℕ × Rect)) :
    List (Ref × Rect) :=
  (match player_tank with
   | some r => [(Ref.playerTank, r)]
   | none => []) ++ enemy_tanks.map fun e => (Ref.enemyTank e.1, e.2)

/-- `CollisionManager.check_collisions`: the ten group pairings, in source
order, concatenated into the per-frame event list. -/
def CollisionManager.check_collisions (player_tank : Option Rect)
    (player_bullets enemy_tanks enemy_bullets destructible_tiles
      impassable_tiles : List (ℕ × Rect))
    (player_base : Option Rect) : List (Ref × Ref) :=
  let all_tanks : List (Ref × Rect) := allTanks player_tank enemy_tanks
  crossPairs Ref.playerBullet Ref.enemyTank player_bullets enemy_tanks ++
  crossPairs Ref.playerBullet Ref.destructibleTile player_bullets destructible_tiles ++
  crossPairs Ref.playerBullet Ref.enemyBullet player_bullets enemy_bullets ++
  crossPairs Ref.playerBullet Ref.impassableTile player_bullets impassable_tiles ++
  bulletsVsTarget Ref.enemyBullet Ref.playerBase enemy_bullets player_base ++
  bulletsVsTarget Ref.enemyBullet Ref.playerTank enemy_bullets player_tank ++
  crossPairs Ref.enemyBullet Ref.destructibleTile enemy_bullets destructible_tiles ++
  crossPairs Ref.enemyBullet Ref.impassableTile enemy_bullets impassable_tiles ++
  (all_tanks.flatMap fun t =>
    (impassable_tiles.filter fun b => Rect.colliderect t.2 b.2).map
      fun b => (t.1, Ref.impassableTile b.1)) ++
  pairsAfter all_tanks

/-! ### Spawner (GameManager._spawn_enemy) -/

/-- `GameManager.SPAWN_POINTS`. -/
def SPAWN_POINTS : List (ℤ × ℤ) :=
  [(3, 1), (GRID_WIDTH / 2, 1), (GRID_WIDTH - 4, 1)]

/-- The slice of `GameManager` state that `_spawn_enemy` reads and writes:
the cumulative and maximum spawn counters, the collidable map rects, the
player rect and the enemy roster rects. -/
structure SpawnCtx where
  total_enemy_spawns : ℕ
  max_enemy_spawns : ℕ
  map_collidables : List Rect
  player_rect : Option Rect
  enemy_rects : List Rect
  deriving DecidableEq

/-- `GameManager._spawn_enemy`: reject when the cumulative counter has
reached the cap; pick a spawn point (`random.choice` modelled by index
`k`); reject when the tile footprint overlaps a collidable tile, the player
tank, or an existing enemy; otherwise append the enemy and bump the
counter.  Always returns, never raises. -/
def GameManager.spawn_enemy (g : SpawnCtx) (k : ℕ) : SpawnCtx × Bool :=
  if g.max_enemy_spawns ≤ g.total_enemy_spawns then (g, false)
  else
    let sp := SPAWN_POINTS.getD (k % SPAWN_POINTS.length) (3, 1)
    let x := sp.1 * TILE_SIZE
    let y := sp.2 * TILE_SIZE
    let temp_rect : Rect := ⟨x, y, TILE_SIZE, TILE_SIZE⟩
    let collision1 := g.map_collidables.any fun r => Rect.colliderect temp_rect r
    let collision2 := collision1 ||
      (match g.player_rect with
       | some pr => Rect.colliderect temp_rect pr
       | none => false)
    let collision3 := collision2 || g.enemy_rects.any fun r => Rect.colliderect temp_rect r
    if collision3 then (g, false)
    else
      ({ g with
          enemy_rects := g.enemy_rects ++ [temp_rect]
          total_enemy_spawns := g.total_enemy_spawns + 1 }, true)

/-! ### Auxiliary predicates and concrete instances used in the theorems -/

/-- The event contains the bullet with id `b` on either side. -/
def bulletInEvent (b : ℕ) (ev : Obj × Obj) : Prop :=
  ev.1 = Obj.bullet b ∨ ev.2 = Obj.bullet b

/-- Every bullet in the per-frame processed set is inactive in the world. -/
def pbInvariant (st : RState) : Prop :=
  ∀ b ∈ st.processed_bullets, (st.world.bullets b).active = false

def Ref.isEnemyBulletRef : Ref → Bool
  | .enemyBullet _ => true
  | _ => false

def Ref.isEnemyTankRef : Ref → Bool
  | .enemyTank _ => true
  | _ => false

def Ref.isTankRef : Ref → Bool
  | .playerTank => true
  | .enemyTank _ => true
  | _ => false

/-- A concrete active player bullet, used as a witness input. -/
def bullet0 : Bullet :=
  { x := 0
    y := 0
    width := BULLET_WIDTH
    height := BULLET_HEIGHT
    rect_x := 0
    rect_y := 0
    direction := .up
    speed := BULLET_SPEED
    active := true
    owner_type := "player" }

/-- A concrete base tank at the origin, used as a witness input. -/
def tank0 : Tank := Tank.init 0 0 1 1 TANK_SPEED

/-- A concrete world whose every tile is the BASE tile, used as a witness
input. -/
def world0 : World :=
  { bullets := fun _ => bullet0
    tanks := fun _ => tank0
    tiles := fun _ => TileType.BASE
    state := .RUNNING
    enemy_tanks := []
    enemies_to_remove := []
    rng := fun _ => 0
    rng_pos := 0
    revert_calls := fun _ => 0 }

/-- A tank that has just moved right by `TANK_SPEED` from `x = 12` to
`x = 24` (so `prev_x = 12`), about to be resolved against a STEEL tile whose
rect is `(32, 0, 32, 32)`: the rects `(24, 0, 32, 32)` and `(32, 0, 32, 32)`
overlap, so the detector emits this pair. -/
def tankC2 : Tank :=
  { Tank.init 12 0 1 1 TANK_SPEED with x := 24, rect_x := 24, direction := .right }

/-- World for the C2 counterexample: tank 0 is `tankC2`, tile 0 is STEEL. -/
def worldC2 : World :=
  { bullets := fun _ => bullet0
    tanks := fun _ => tankC2
    tiles := fun _ => TileType.STEEL
    state := .RUNNING
    enemy_tanks := []
    enemies_to_remove := []
    rng := fun _ => 0
    rng_pos := 0
    revert_calls := fun _ => 0 }

/-- World for the C4 counterexample: three tanks 0, 1, 2.  With tank 0 at
`(0, 0)`, tank 1 at `(20, 0)` and tank 2 at `(-20, 0)`, tank 0 overlaps both
others while tanks 1 and 2 do not overlap each other, so the detector emits
exactly the pairs `(tank 0, tank 1)` and `(tank 0, tank 2)`. -/
def worldC4 : World :=
  { bullets := fun _ => bullet0
    tanks := fun i =>
      if i = 1 then Tank.init 20 0 1 1 TANK_SPEED
      else if i = 2 then Tank.init (-20) 0 1 1 TANK_SPEED
      else tank0
    tiles := fun _ => TileType.EMPTY
    state := .RUNNING
    enemy_tanks := [0, 1, 2]
    enemies_to_remove := []
    rng := fun _ => 0
    rng_pos := 0
    revert_calls := fun _ => 0 }

/-- World for the C3 witness: bullet 0 is already inactive. -/
def worldC3 : World :=
  { bullets := fun _ => { bullet0 with active := false }
    tanks := fun _ => tank0
    tiles := fun _ => TileType.BRICK
    state := .RUNNING
    enemy_tanks := []
    enemies_to_remove := []
    rng := fun _ => 0
    rng_pos := 0
    revert_calls := fun _ => 0 }

/-- Resolver accumulator for the C3 witness: fresh per-frame sets over
`worldC3`. -/
def rstateC3 : RState :=
  { world := worldC3, processed_bullets := [], reverted_tanks := [] }

/-- Resolver accumulator for the C4 witness: tanks 0 and 1 have already
been reverted this frame. -/
def rstateC4 : RState :=
  { world := worldC4, processed_bullets := [], reverted_tanks := [0, 1] }

/-- A spawn context whose cumulative counter has reached the cap, used as a
witness input. -/
def spawnCtx0 : SpawnCtx :=
  { total_enemy_spawns := 5
    max_enemy_spawns := 5
    map_collidables := []
    player_rect := none
    enemy_rects := [] }

/-! ## Theorems -/

/-! ### Small facts about the world setters -/

theorem setBullet_bullets (w : World) (i : ℕ) (b : Bullet) (j : ℕ) :
    (World.setBullet w i b).bullets j = if j = i then b else w.bullets j := rfl

theorem setTank_tanks (w : World) (i : ℕ) (t : Tank) (j : ℕ) :
    (World.setTank w i t).tanks j = if j = i then t else w.tanks j := rfl

theorem setTile_tiles (w : World) (i : ℕ) (ty : TileType) (j : ℕ) :
    (World.setTile w i ty).tiles j = if j = i then ty else w.tiles j := rfl

/-- C1 counterexample: a base tank with the default `TANK_SPEED` and an
elapsed cadence timer accepts `_move(1, 0)` from `x = 0`, but lands on
`x = 12`, which is neither one tile extent (`TILE_SIZE = 32`) away nor a
multiple of the tile size (`12 % 32 = 12 ≠ 0`). -/
theorem C1_move_counterexample :
    (Tank.move { Tank.init 0 0 1 1 TANK_SPEED with move_timer := 1 } 1 0).2 = true ∧
    (Tank.move { Tank.init 0 0 1 1 TANK_SPEED with move_timer := 1 } 1 0).1.x = 12 ∧
    (Tank.move { Tank.init 0 0 1 1 TANK_SPEED with move_timer := 1 } 1 0).1.x -
      (Tank.init 0 0 1 1 TANK_SPEED).x ≠ (TILE_SIZE : ℚ) ∧
    ratMod (Tank.move { Tank.init 0 0 1 1 TANK_SPEED with move_timer := 1 } 1 0).1.x
      (TILE_SIZE : ℚ) ≠ 0 := by
  refine ⟨?_, ?_, ?_, ?_⟩ <;>
    norm_num [Tank.move, Tank.init, TANK_SPEED, TILE_SIZE, SOURCE_TILE_SIZE, SCALE, ratMod]

/-- C1 (amended): an accepted `_move(dx, dy)` (cadence timer elapsed, not
both deltas nonzero) advances the position by exactly `d * speed` pixels on
each axis — `speed` defaults to `TANK_SPEED = 12`, not `tile_size = 32` —
resets the cadence timer, and leaves `prev_position` (captured earlier in
`Tank.update`) unchanged; consequently positions of tanks at rest need not
be multiples of `tile_size`. -/
theorem C1_move_advances_by_speed (t : Tank) (dx dy : ℤ)
    (htimer : ¬ t.move_timer < t.move_delay) (hdiag : ¬ (dx ≠ 0 ∧ dy ≠ 0)) :
    (Tank.move t dx dy).2 = true ∧
    (Tank.move t dx dy).1.x = t.x + (dx : ℚ) * t.speed ∧
    (Tank.move t dx dy).1.y = t.y + (dy : ℚ) * t.speed ∧
    (Tank.move t dx dy).1.move_timer = 0 ∧
    (Tank.move t dx dy).1.prev_x = t.prev_x ∧
    (Tank.move t dx dy).1.prev_y = t.prev_y := by
  simp [Tank.move, htimer, hdiag]

/-- Witness for C1: the amended statement evaluated on a concrete tank. -/
theorem C1_move_advances_by_speed_witness :
    (Tank.move { Tank.init 0 0 1 1 TANK_SPEED with move_timer := 1 } 1 0).1.x =
      (Tank.init 0 0 1 1 TANK_SPEED).x + (1 : ℤ) * TANK_SPEED := by
  have h := C1_move_advances_by_speed
    { Tank.init 0 0 1 1 TANK_SPEED with move_timer := 1 } 1 0
    (by norm_num [Tank.init]) (by simp)
  simpa [Tank.init] using h.2.1

/-- C7: for a damageable (non-invincible) tank with a nonnegative
`max_health` and a nonnegative damage amount, `take_damage` never leaves
health negative; it returns True exactly when the clamped health reaches 0
and no lives remain after the decrement; and when health reaches 0 but
lives remain, health is reset to exactly `max_health` and the call returns
False. -/
theorem C7_take_damage_spec (t : Tank) (amount : ℤ)
    (hinv : t.is_invincible = false) (hmh : 0 ≤ t.max_health) (hamt : 0 ≤ amount) :
    0 ≤ (Tank.take_damage t amount).1.health ∧
    ((Tank.take_damage t amount).2 = true ↔ t.health - amount ≤ 0 ∧ t.lives - 1 ≤ 0) ∧
    (t.health - amount ≤ 0 → 0 < t.lives - 1 →
      (Tank.take_damage t amount).1.health = t.max_health ∧
      (Tank.take_damage t amount).2 = false) := by
  simp only [Tank.take_damage, hinv, Bool.false_eq_true, if_false]
  split_ifs with h0 hl
  · have h1 : t.health - amount ≤ 0 := (max_le_iff.mp h0).2
    refine ⟨hmh, ?_, fun _ _ => ⟨rfl, rfl⟩⟩
    simp only [Bool.false_eq_true, false_iff, not_and]
    intro hc
    omega
  · have h1 : t.health - amount ≤ 0 := (max_le_iff.mp h0).2
    refine ⟨le_max_left 0 _, ?_, fun _ h => absurd h hl⟩
    simp only [true_iff]
    exact ⟨h1, by omega⟩
  · have h1 : ¬ t.health - amount ≤ 0 := by
      intro h; exact h0 (max_le_iff.mpr ⟨le_refl 0, h⟩)
    refine ⟨le_max_left 0 _, ?_, fun h => absurd h h1⟩
    simp only [Bool.false_eq_true, false_iff, not_and]
    intro hc
    exact absurd hc h1

/-- Witness for C7: a two-life tank (health 1, max health 1) taking 1
damage loses a life, resets to full health and reports not destroyed. -/
theorem C7_take_damage_spec_witness :
    (Tank.take_damage (Tank.init 0 0 1 2 TANK_SPEED) 1).1.health =
      (Tank.init 0 0 1 2 TANK_SPEED).max_health ∧
    (Tank.take_damage (Tank.init 0 0 1 2 TANK_SPEED) 1).2 = false :=
  (C7_take_damage_spec (Tank.init 0 0 1 2 TANK_SPEED) 1 rfl (by norm_num [Tank.init])
    (by norm_num)).2.2 (by norm_num [Tank.init]) (by norm_num [Tank.init])

/-- C10: `revert_move()` with no obstacle rect restores the position to
`(prev_x, prev_y)` without touching `prev_x`/`prev_y`, so it is idempotent:
a second consecutive no-argument revert produces exactly the same tank
state. -/
theorem C10_revert_move_idempotent (t : Tank) :
    Tank.revert_move (Tank.revert_move t none) none = Tank.revert_move t none ∧
    (Tank.revert_move t none).prev_x = t.prev_x ∧
    (Tank.revert_move t none).prev_y = t.prev_y ∧
    (Tank.revert_move t none).x = t.prev_x ∧
    (Tank.revert_move t none).y = t.prev_y := by
  simp [Tank.revert_move]

/-- C9: the `GameState` enum declares only RUNNING, GAME_OVER and VICTORY;
the attribute `GameState.EXIT` that `GameManager._quit_game` assigns (and
`GameManager.run` compares against every frame) does not exist, so the
quit path raises `AttributeError` from every state instead of transitioning
to an EXIT state. -/
theorem C9_quit_game_raises (s : GameState) :
    GameState.lookup "EXIT" = none ∧
    GameManager.quit_game s = Except.error "AttributeError" :=
  ⟨rfl, rfl⟩

/-- C6: resolving a bullet-vs-BASE-tile event (for any owner, player or
enemy — the tile branch never inspects `owner_type`) deactivates the
bullet, turns the tile into BASE_DESTROYED and sets the game state to
GAME_OVER. -/
theorem C6_bullet_base_game_over (w : World) (b k : ℕ)
    (hb : (w.bullets b).active = true) (ht : w.tiles k = TileType.BASE) :
    (GameManager.handle_bullet_collision w b (Obj.tile k)).2 = true ∧
    ((GameManager.handle_bullet_collision w b (Obj.tile k)).1.bullets b).active = false ∧
    (GameManager.handle_bullet_collision w b (Obj.tile k)).1.tiles k =
      TileType.BASE_DESTROYED ∧
    (GameManager.handle_bullet_collision w b (Obj.tile k)).1.state =
      GameState.GAME_OVER := by
  simp [GameManager.handle_bullet_collision, hb, ht, World.setBullet, World.setTile]

/-- Witness for C6: an enemy-owned bullet hitting the base tile of a
concrete world. -/
theorem C6_bullet_base_game_over_witness :
    (GameManager.handle_bullet_collision
      (World.setBullet world0 0 { bullet0 with owner_type := "enemy" }) 0 (Obj.tile 0)).2 =
        true ∧
    ((GameManager.handle_bullet_collision
      (World.setBullet world0 0 { bullet0 with owner_type := "enemy" }) 0
        (Obj.tile 0)).1.bullets 0).active = false ∧
    (GameManager.handle_bullet_collision
      (World.setBullet world0 0 { bullet0 with owner_type := "enemy" }) 0
        (Obj.tile 0)).1.tiles 0 = TileType.BASE_DESTROYED ∧
    (GameManager.handle_bullet_collision
      (World.setBullet world0 0 { bullet0 with owner_type := "enemy" }) 0
        (Obj.tile 0)).1.state = GameState.GAME_OVER :=
  C6_bullet_base_game_over (World.setBullet world0 0 { bullet0 with owner_type := "enemy" })
    0 0 rfl rfl

/-- `_change_direction` never picks the reverse of the current direction:
the candidate list is the four directions with the opposite removed. -/
theorem change_direction_ne_opposite (d : Direction) (k : ℕ) :
    EnemyTank.change_direction d k ≠ oppositeDirection d := by
  have h3 : k % 3 = 0 ∨ k % 3 = 1 ∨ k % 3 = 2 := by omega
  cases d <;> rcases h3 with h | h | h <;>
    simp [EnemyTank.change_direction, oppositeDirection, List.filter, h]

/-- C2 counterexample: tank 0 of `worldC2` moved right from `x = 12` to
`x = 24` and collides with a STEEL tile whose rect is `(32, 0, 32, 32)`.
The claim says the resolver snaps its x to the tile's left edge minus the
tank width, `32 - 32 = 0`; the code calls `revert_move()` with no obstacle
rect, so the tank jumps back to its pre-move `x = 12`. -/
theorem C2_snap_counterexample :
    (GameManager.handle_tank_tile_collision worldC2 0 0).2 = true ∧
    ((GameManager.handle_tank_tile_collision worldC2 0 0).1.tanks 0).x = 12 ∧
    ((GameManager.handle_tank_tile_collision worldC2 0 0).1.tanks 0).x ≠
      (((32 : ℤ) - TANK_WIDTH : ℤ) : ℚ) := by
  refine ⟨by decide, by decide, by decide⟩

/-- C2 (amended): resolving a tank vs impassable-tile pair reverts the tank
to its pre-move position (`revert_move` is invoked with no obstacle rect,
so no snap-to-edge happens even though `revert_move` supports it), and if
the tank is an enemy its direction is re-rolled immediately (the new
direction is never the reverse of the old one, though it may equal it) with
the direction-change timer reset to 0. -/
theorem C2_tank_tile_reverts_to_prev (w : World) (i k : ℕ)
    (h : w.tiles k ∈ impassableTypes) :
    (GameManager.handle_tank_tile_collision w i k).2 = true ∧
    ((GameManager.handle_tank_tile_collision w i k).1.tanks i).x = (w.tanks i).prev_x ∧
    ((GameManager.handle_tank_tile_collision w i k).1.tanks i).y = (w.tanks i).prev_y ∧
    ((w.tanks i).cls = TankClass.enemyTank →
      ((GameManager.handle_tank_tile_collision w i k).1.tanks i).direction_timer = 0 ∧
      ((GameManager.handle_tank_tile_collision w i k).1.tanks i).direction ≠
        oppositeDirection (w.tanks i).direction) := by
  simp only [GameManager.handle_tank_tile_collision, h, if_true]
  split_ifs with hcls
  · refine ⟨rfl, ?_, ?_, fun _ => ⟨?_, ?_⟩⟩ <;>
      simp [World.setTank, World.bumpRevert, Tank.revert_move,
        change_direction_ne_opposite]
  · have hcls0 : ¬ (w.tanks i).cls = TankClass.enemyTank := hcls
    refine ⟨rfl, ?_, ?_, fun hc => absurd hc hcls0⟩ <;>
      simp [World.setTank, World.bumpRevert, Tank.revert_move]

/-- Witness for C2 (amended): the concrete tank-vs-STEEL collision of
`worldC2`. -/
theorem C2_tank_tile_reverts_to_prev_witness :
    ((GameManager.handle_tank_tile_collision worldC2 0 0).1.tanks 0).x =
      (worldC2.tanks 0).prev_x :=
  (C2_tank_tile_reverts_to_prev worldC2 0 0 (by simp [worldC2, impassableTypes])).2.1

/-- A blocked spawn attempt (by the cap, or by overlap with a collidable
tile, the player tank, or an existing enemy tank) changes nothing. -/
theorem spawn_enemy_blocked_no_change (g : SpawnCtx) (k : ℕ)
    (h : (GameManager.spawn_enemy g k).2 = false) :
    (GameManager.spawn_enemy g k).1 = g := by
  simp only [GameManager.spawn_enemy] at h ⊢
  split_ifs at h ⊢
  · rfl
  · rfl

/-- A spawn attempt at or above the cap returns False with no state
change. -/
theorem spawn_enemy_at_cap (g : SpawnCtx) (k : ℕ)
    (h : g.max_enemy_spawns ≤ g.total_enemy_spawns) :
    GameManager.spawn_enemy g k = (g, false) := by
  unfold GameManager.spawn_enemy
  rw [if_pos h]

/-- C8: once the cumulative spawn counter has reached `max_enemy_spawns`,
every spawn attempt — including every later one in any sequence of
attempts — returns False and changes nothing; the counter never exceeds
the cap; and any blocked attempt (cap or overlap) leaves the whole spawn
state (roster and counters) unchanged.  The embedded `spawn_enemy` is a
total function, so no attempt can raise. -/
theorem C8_spawn_cap (g : SpawnCtx) (k : ℕ) :
    (g.max_enemy_spawns ≤ g.total_enemy_spawns →
      GameManager.spawn_enemy g k = (g, false)) ∧
    (g.total_enemy_spawns ≤ g.max_enemy_spawns →
      (GameManager.spawn_enemy g k).1.total_enemy_spawns ≤ g.max_enemy_spawns) ∧
    ((GameManager.spawn_enemy g k).2 = false → (GameManager.spawn_enemy g k).1 = g) ∧
    (∀ ks : List ℕ, g.max_enemy_spawns ≤ g.total_enemy_spawns →
      ks.foldl (fun s j => (GameManager.spawn_enemy s j).1) g = g) := by
  refine ⟨spawn_enemy_at_cap g k, ?_, spawn_enemy_blocked_no_change g k, ?_⟩
  · intro hle
    simp only [GameManager.spawn_enemy]
    split_ifs with c1 c2
    · exact hle
    · exact hle
    · dsimp only
      omega
  · intro ks
    induction ks generalizing g with
    | nil => intro _; rfl
    | cons a rest ih =>
      intro hcap
      simp only [List.foldl_cons]
      rw [show (GameManager.spawn_enemy g a).1 = g from
        by rw [spawn_enemy_at_cap g a hcap]]
      exact ih g hcap

/-- Witness for C8: the concrete at-cap context `spawnCtx0`. -/
theorem C8_spawn_cap_witness :
    GameManager.spawn_enemy spawnCtx0 0 = (spawnCtx0, false) ∧
    (GameManager.spawn_enemy spawnCtx0 0).1.total_enemy_spawns ≤ 5 ∧
    (GameManager.spawn_enemy spawnCtx0 0).1 = spawnCtx0 ∧
    [1, 2, 3].foldl (fun s j => (GameManager.spawn_enemy s j).1) spawnCtx0 = spawnCtx0 :=
  ⟨(C8_spawn_cap spawnCtx0 0).1 (by decide),
   (C8_spawn_cap spawnCtx0 0).2.1 (by decide),
   (C8_spawn_cap spawnCtx0 0).2.2.1 (by decide),
   (C8_spawn_cap spawnCtx0 0).2.2.2 [1, 2, 3] (by decide)⟩

/-! ### Helper lemmas for the per-frame processed-set arguments -/

/-! ### Helper lemmas for the per-frame processed-set arguments -/

theorem setTank_bullets (w : World) (i : ℕ) (t : Tank) :
    (World.setTank w i t).bullets = w.bullets := rfl

theorem setTile_bullets (w : World) (i : ℕ) (ty : TileType) :
    (World.setTile w i ty).bullets = w.bullets := rfl

theorem bumpRevert_bullets (w : World) (i : ℕ) :
    (World.bumpRevert w i).bullets = w.bullets := rfl

/-- Resolving an already-inactive bullet is a no-op returning False. -/
theorem handle_bullet_self_inactive (w : World) (b : ℕ) (other : Obj)
    (hb : (w.bullets b).active = false) :
    GameManager.handle_bullet_collision w b other = (w, false) := by
  unfold GameManager.handle_bullet_collision
  rw [if_pos hb]

/-- A bullet-vs-bullet pair whose second bullet is inactive is a no-op
returning False. -/
theorem handle_bullet_other_inactive (w : World) (j b : ℕ)
    (hb : (w.bullets b).active = false) :
    GameManager.handle_bullet_collision w j (Obj.bullet b) = (w, false) := by
  unfold GameManager.handle_bullet_collision
  by_cases hj : (w.bullets j).active = false
  · rw [if_pos hj]
  · rw [if_neg hj]
    dsimp only
    rw [if_neg (by simp [hb])]

/-- The bullet handler never reactivates any bullet. -/
theorem handle_bullet_no_reactivation (w : World) (j : ℕ) (other : Obj) (b : ℕ)
    (hb : (w.bullets b).active = false) :
    ((GameManager.handle_bullet_collision w j other).1.bullets b).active = false := by
  unfold GameManager.handle_bullet_collision
  by_cases hj : (w.bullets j).active = false
  · rw [if_pos hj]
    exact hb
  · rw [if_neg hj]
    cases other with
    | tank t =>
      dsimp only
      split_ifs <;>
        (try simp only [setTank_bullets, setBullet_bullets]) <;>
        first
        | exact hb
        | (by_cases hbj : b = j <;> simp [hbj, hb])
    | tile t =>
      dsimp only
      rcases htile : w.tiles t <;> dsimp only <;>
        (try simp only [setTile_bullets, setBullet_bullets]) <;>
        first
        | exact hb
        | (by_cases hbj : b = j <;> simp [hbj, hb])
    | bullet c =>
      dsimp only
      split_ifs with h1 h2
      · simp only [setBullet_bullets]
        by_cases hbc : b = c
        · simp [hbc]
        · by_cases hbj : b = j
          · simp [hbc, hbj, h2]
          · simp [hbc, hbj, hb]
      · exact hb
      · exact hb

/-- When the bullet handler reports True, the selected bullet ends up
inactive. -/
theorem handle_bullet_true_self_inactive (w : World) (j : ℕ) (other : Obj)
    (h : (GameManager.handle_bullet_collision w j other).2 = true) :
    ((GameManager.handle_bullet_collision w j other).1.bullets j).active = false := by
  unfold GameManager.handle_bullet_collision at h ⊢
  by_cases hj : (w.bullets j).active = false
  · rw [if_pos hj] at h
    exact Bool.noConfusion h
  · rw [if_neg hj] at h ⊢
    cases other with
    | tank t =>
      dsimp only at h ⊢
      split_ifs at h ⊢ <;>
        first
        | exact Bool.noConfusion h
        | simp [setTank_bullets, setBullet_bullets]
    | tile t =>
      dsimp only at h ⊢
      rcases htile : w.tiles t <;> rw [htile] at h <;> dsimp only at h ⊢ <;>
        first
        | exact Bool.noConfusion h
        | simp [setTile_bullets, setBullet_bullets]
    | bullet c =>
      dsimp only at h ⊢
      split_ifs at h ⊢ with h1 h2 <;>
        first
        | exact Bool.noConfusion h
        | (simp only [setBullet_bullets]
           simp [h2])

/-- When the bullet handler reports True on a bullet-vs-bullet pair, the
other bullet ends up inactive too. -/
theorem handle_bullet_true_other_inactive (w : World) (j c : ℕ)
    (h : (GameManager.handle_bullet_collision w j (Obj.bullet c)).2 = true) :
    ((GameManager.handle_bullet_collision w j (Obj.bullet c)).1.bullets c).active =
      false := by
  unfold GameManager.handle_bullet_collision at h ⊢
  by_cases hj : (w.bullets j).active = false
  · rw [if_pos hj] at h
    exact Bool.noConfusion h
  · rw [if_neg hj] at h ⊢
    dsimp only at h ⊢
    split_ifs at h ⊢ with h1 h2 <;>
      first
      | exact Bool.noConfusion h
      | (simp only [setBullet_bullets]
         simp)

/-- The tank-vs-tank handler does not touch bullets. -/
theorem handle_tank_tank_bullets (w : World) (i j : ℕ) :
    (GameManager.handle_tank_tank_collision w i j).1.bullets = w.bullets := rfl

/-- The tank-vs-tile handler does not touch bullets. -/
theorem handle_tank_tile_bullets (w : World) (i k : ℕ) :
    (GameManager.handle_tank_tile_collision w i k).1.bullets = w.bullets := by
  simp only [GameManager.handle_tank_tile_collision]
  split_ifs <;> rfl

/-- Needed to reason about the processed sets: set insertion only adds the
inserted element. -/
theorem addSet_cases {l : List ℕ} {x b : ℕ} (h : b ∈ addSet l x) : b = x ∨ b ∈ l := by
  unfold addSet at h
  split_ifs at h with hx
  · exact Or.inr h
  · rcases List.mem_cons.mp h with h | h
    · exact Or.inl h
    · exact Or.inr h

/-- One resolver step never reactivates a bullet. -/
theorem step_event_preserves_inactive (st : RState) (ev : Obj × Obj) (b : ℕ)
    (hb : (st.world.bullets b).active = false) :
    ((GameManager.step_event st ev).world.bullets b).active = false := by
  obtain ⟨a, c⟩ := ev
  unfold GameManager.step_event
  dsimp only
  rcases hsel : selectBullet st.processed_bullets a c with - | ⟨j, other⟩
  · dsimp only
    cases a <;> cases c <;> dsimp only <;>
      (try split_ifs) <;>
      (try simp only [handle_tank_tank_bullets, handle_tank_tile_bullets]) <;>
      exact hb
  · dsimp only
    split_ifs <;> exact handle_bullet_no_reactivation st.world j other b hb

/-- A step on an event containing an already-inactive bullet changes
nothing: not the world, not the processed sets. -/
theorem step_event_noop_inactive (st : RState) (ev : Obj × Obj) (b : ℕ)
    (hb : (st.world.bullets b).active = false) (hev : bulletInEvent b ev) :
    GameManager.step_event st ev = st := by
  obtain ⟨w, pb, rt⟩ := st
  obtain ⟨a, c⟩ := ev
  simp only at hb
  rcases hev with h | h
  · subst h
    by_cases hbp : b ∈ pb
    · cases c with
      | bullet j =>
        by_cases hjp : j ∈ pb
        · simp [GameManager.step_event, selectBullet, hbp, hjp]
        · simp [GameManager.step_event, selectBullet, hbp, hjp,
            handle_bullet_other_inactive, hb]
      | tank i => simp [GameManager.step_event, selectBullet, hbp]
      | tile k => simp [GameManager.step_event, selectBullet, hbp]
    · simp [GameManager.step_event, selectBullet, hbp,
        handle_bullet_self_inactive, hb]
  · subst h
    cases a with
    | bullet j =>
      by_cases hjp : j ∈ pb
      · by_cases hbp : b ∈ pb
        · simp [GameManager.step_event, selectBullet, hjp, hbp]
        · simp [GameManager.step_event, selectBullet, hjp, hbp,
            handle_bullet_self_inactive, hb]
      · simp [GameManager.step_event, selectBullet, hjp,
          handle_bullet_other_inactive, hb]
    | tank i =>
      by_cases hbp : b ∈ pb
      · simp [GameManager.step_event, selectBullet, hbp]
      · simp [GameManager.step_event, selectBullet, hbp,
          handle_bullet_self_inactive, hb]
    | tile k =>
      by_cases hbp : b ∈ pb
      · simp [GameManager.step_event, selectBullet, hbp]
      · simp [GameManager.step_event, selectBullet, hbp,
          handle_bullet_self_inactive, hb]

/-- One resolver step keeps every processed bullet inactive. -/
theorem step_event_preserves_pbInv (st : RState) (ev : Obj × Obj)
    (hinv : pbInvariant st) : pbInvariant (GameManager.step_event st ev) := by
  obtain ⟨a, c⟩ := ev
  intro b hbmem
  unfold GameManager.step_event at hbmem ⊢
  dsimp only at hbmem ⊢
  rcases hsel : selectBullet st.processed_bullets a c with - | ⟨j, other⟩ <;>
    rw [hsel] at hbmem
  · dsimp only at hbmem ⊢
    cases a <;> cases c <;> dsimp only at hbmem ⊢ <;>
      (try split_ifs at hbmem ⊢) <;>
      (try simp only [handle_tank_tank_bullets, handle_tank_tile_bullets]) <;>
      exact hinv b hbmem
  · dsimp only at hbmem ⊢
    split_ifs at hbmem ⊢ with hres
    · rcases other with oc | oi | ok
      · dsimp only at hbmem
        rcases addSet_cases hbmem with h | h
        · subst h
          exact handle_bullet_true_other_inactive st.world j b hres
        · rcases addSet_cases h with h2 | h2
          · subst h2
            exact handle_bullet_true_self_inactive st.world b (Obj.bullet oc) hres
          · exact handle_bullet_no_reactivation st.world j (Obj.bullet oc) b
              (hinv b h2)
      · dsimp only at hbmem
        rcases addSet_cases hbmem with h | h
        · subst h
          exact handle_bullet_true_self_inactive st.world b (Obj.tank oi) hres
        · exact handle_bullet_no_reactivation st.world j (Obj.tank oi) b (hinv b h)
      · dsimp only at hbmem
        rcases addSet_cases hbmem with h | h
        · subst h
          exact handle_bullet_true_self_inactive st.world b (Obj.tile ok) hres
        · exact handle_bullet_no_reactivation st.world j (Obj.tile ok) b (hinv b h)
    · exact handle_bullet_no_reactivation st.world j other b (hinv b hbmem)

/-- The step invariant extends through the whole event fold. -/
theorem foldl_preserves_pbInv (events : List (Obj × Obj)) (st : RState)
    (h : pbInvariant st) :
    pbInvariant (events.foldl GameManager.step_event st) := by
  induction events generalizing st with
  | nil => exact h
  | cons e rest ih =>
    exact ih (GameManager.step_event st e) (step_event_preserves_pbInv st e h)

/-- After a whole `_process_collisions` pass, every bullet in the processed
set is inactive (the closing roster cleanup touches neither bullets nor the
set). -/
theorem process_collisions_pbInv (w : World) (events : List (Obj × Obj)) :
    pbInvariant (GameManager.process_collisions w events) := by
  intro b hbmem
  unfold GameManager.process_collisions at hbmem ⊢
  dsimp only at hbmem ⊢
  exact foldl_preserves_pbInv events
    { world := w, processed_bullets := [], reverted_tanks := [] }
    (fun x hx => absurd hx (List.not_mem_nil x)) b hbmem

/-- C3: within one `_process_collisions` pass, a bullet is resolved at most
once.  Once a bullet is inactive, (i) any later event containing it is a
complete no-op on the world and both processed sets, and (ii) no step ever
reactivates it; and (iii) every bullet in the per-frame processed set is
inactive at every point of the pass — in particular (iv) at the end of any
full pass, which starts from an empty set. -/
theorem C3_bullet_resolved_at_most_once (st : RState) (ev : Obj × Obj) (b : ℕ)
    (hb : (st.world.bullets b).active = false) :
    (bulletInEvent b ev → GameManager.step_event st ev = st) ∧
    ((GameManager.step_event st ev).world.bullets b).active = false ∧
    (pbInvariant st → pbInvariant (GameManager.step_event st ev)) ∧
    (∀ w events, pbInvariant (GameManager.process_collisions w events)) :=
  ⟨fun hev => step_event_noop_inactive st ev b hb hev,
   step_event_preserves_inactive st ev b hb,
   fun hinv => step_event_preserves_pbInv st ev hinv,
   fun w events => process_collisions_pbInv w events⟩

/-- Witness for C3: stepping a pair that contains the already-inactive
bullet 0 of `worldC3` leaves the accumulator untouched. -/
theorem C3_bullet_resolved_at_most_once_witness :
    GameManager.step_event rstateC3 (Obj.bullet 0, Obj.tile 0) = rstateC3 ∧
    ((GameManager.step_event rstateC3 (Obj.bullet 0, Obj.tile 0)).world.bullets 0).active =
      false ∧
    pbInvariant (GameManager.step_event rstateC3 (Obj.bullet 0, Obj.tile 0)) ∧
    pbInvariant (GameManager.process_collisions worldC3 [(Obj.bullet 0, Obj.tile 0)]) := by
  have h := C3_bullet_resolved_at_most_once rstateC3 (Obj.bullet 0, Obj.tile 0) 0 rfl
  exact ⟨h.1 (Or.inl rfl), h.2.1,
    h.2.2.1 (fun x hx => absurd hx (List.not_mem_nil x)),
    h.2.2.2 worldC3 [(Obj.bullet 0, Obj.tile 0)]⟩

theorem setTank_tanks_eq (w : World) (i : ℕ) (t : Tank) (j : ℕ) :
    (World.setTank w i t).tanks j = if j = i then t else w.tanks j := rfl

theorem bumpRevert_tanks (w : World) (i : ℕ) :
    (World.bumpRevert w i).tanks = w.tanks := rfl

/-- C4 counterexample: with three mutually arranged tanks (tank 0 overlaps
tanks 1 and 2, which do not overlap each other) the detector emits the
batch `[(tank 0, tank 1), (tank 0, tank 2)]`.  Processing it invokes
`revert_move` on tank 0 twice — the second pair is not skipped because its
guard is `obj_a not in reverted or obj_b not in reverted` and tank 2 is
still fresh — refuting the claim that each tank is reverted at most once
per pass.  `revert_calls` is the ghost invocation counter. -/
theorem C4_double_revert_counterexample :
    ((GameManager.process_collisions worldC4
        [(Obj.tank 0, Obj.tank 1), (Obj.tank 0, Obj.tank 2)]).world.revert_calls 0) =
      2 := by decide

/-- C4 (amended): the per-frame guards are per-pair, not per-tank: a
tank-vs-tile event is skipped when its tank has already been reverted, and
a tank-vs-tank event is skipped only when *both* tanks have already been
reverted; a tank paired with a still-fresh tank is reverted again, which is
harmless because an argumentless revert always lands the tank on its
unchanged `prev_position`. -/
theorem C4_revert_guards (st : RState) (i j k : ℕ) :
    (i ∈ st.reverted_tanks → GameManager.step_event st (Obj.tank i, Obj.tile k) = st) ∧
    (j ∈ st.reverted_tanks → GameManager.step_event st (Obj.tile k, Obj.tank j) = st) ∧
    (i ∈ st.reverted_tanks → j ∈ st.reverted_tanks →
      GameManager.step_event st (Obj.tank i, Obj.tank j) = st) ∧
    (((GameManager.handle_tank_tank_collision st.world i j).1.tanks i).x =
        (st.world.tanks i).prev_x ∧
      ((GameManager.handle_tank_tank_collision st.world i j).1.tanks i).y =
        (st.world.tanks i).prev_y ∧
      ((GameManager.handle_tank_tank_collision st.world i j).1.tanks i).prev_x =
        (st.world.tanks i).prev_x ∧
      ((GameManager.handle_tank_tank_collision st.world i j).1.tanks i).prev_y =
        (st.world.tanks i).prev_y) ∧
    (((GameManager.handle_tank_tank_collision st.world i j).1.tanks j).x =
        (st.world.tanks j).prev_x ∧
      ((GameManager.handle_tank_tank_collision st.world i j).1.tanks j).y =
        (st.world.tanks j).prev_y) := by
  obtain ⟨w, pb, rt⟩ := st
  refine ⟨?_, ?_, ?_, ?_, ?_⟩
  · intro hi
    simp [GameManager.step_event, selectBullet, hi]
  · intro hj
    simp [GameManager.step_event, selectBullet, hj]
  · intro hi hj
    simp [GameManager.step_event, selectBullet, hi, hj]
  · by_cases hij : i = j <;>
      simp [GameManager.handle_tank_tank_collision, setTank_tanks_eq,
        bumpRevert_tanks, Tank.revert_move, hij]
  · by_cases hij : j = i <;>
      simp [GameManager.handle_tank_tank_collision, setTank_tanks_eq,
        bumpRevert_tanks, Tank.revert_move, hij]

/-- Witness for C4 (amended): concrete guards over `rstateC4`, whose
reverted set already holds tanks 0 and 1. -/
theorem C4_revert_guards_witness :
    GameManager.step_event rstateC4 (Obj.tank 0, Obj.tile 0) = rstateC4 ∧
    GameManager.step_event rstateC4 (Obj.tile 0, Obj.tank 1) = rstateC4 ∧
    GameManager.step_event rstateC4 (Obj.tank 0, Obj.tank 1) = rstateC4 ∧
    ((GameManager.handle_tank_tank_collision rstateC4.world 0 2).1.tanks 0).x =
      (rstateC4.world.tanks 0).prev_x := by
  have h := C4_revert_guards rstateC4 0 1 0
  have h2 := C4_revert_guards rstateC4 0 2 0
  exact ⟨h.1 (by decide), h.2.1 (by decide), h.2.2.1 (by decide) (by decide),
    h2.2.2.2.1.1⟩

/-! ### Lemmas about the collision detector -/

/-- Every pair emitted by a `crossPairs` nest carries the two group
constructors. -/
theorem crossPairs_shape {fa fb : ℕ → Ref} {as1 bs : List (ℕ × Rect)}
    {p : Ref × Ref} (h : p ∈ crossPairs fa fb as1 bs) :
    ∃ i j, p = (fa i, fb j) := by
  simp only [crossPairs, List.mem_flatMap, List.mem_map, List.mem_filter] at h
  obtain ⟨a, -, b, -, rfl⟩ := h
  exact ⟨a.1, b.1, rfl⟩

/-- Every pair emitted against an optional single target carries the
bullet-group constructor and the target. -/
theorem bulletsVsTarget_shape {fa : ℕ → Ref} {tgt : Ref}
    {bullets : List (ℕ × Rect)} {target : Option Rect} {p : Ref × Ref}
    (h : p ∈ bulletsVsTarget fa tgt bullets target) :
    ∃ i, p = (fa i, tgt) := by
  cases target with
  | none => simp [bulletsVsTarget] at h
  | some r =>
    simp only [bulletsVsTarget, List.mem_map, List.mem_filter] at h
    obtain ⟨b, -, rfl⟩ := h
    exact ⟨b.1, rfl⟩

/-- Both components of a `pairsAfter` pair come from the list. -/
theorem pairsAfter_comp_mem {ts : List (Ref × Rect)} {p : Ref × Ref}
    (h : p ∈ pairsAfter ts) :
    p.1 ∈ ts.map Prod.fst ∧ p.2 ∈ ts.map Prod.fst := by
  induction ts with
  | nil => simp [pairsAfter] at h
  | cons a rest ih =>
    rw [pairsAfter] at h
    rcases List.mem_append.mp h with h | h
    · simp only [List.mem_map, List.mem_filter] at h
      obtain ⟨b, ⟨hbr, -⟩, rfl⟩ := h
      refine ⟨by simp, ?_⟩
      simp only [List.map_cons, List.mem_cons, List.mem_map]
      exact Or.inr ⟨b, hbr, rfl⟩
    · have hih := ih h
      constructor <;> simp only [List.map_cons, List.mem_cons] <;>
        [exact Or.inr hih.1; exact Or.inr hih.2]

/-- Over a duplicate-free tank list, `pairsAfter` never pairs a reference
with itself. -/
theorem pairsAfter_ne {ts : List (Ref × Rect)}
    (hnd : (ts.map Prod.fst).Nodup) {p : Ref × Ref} (h : p ∈ pairsAfter ts) :
    p.1 ≠ p.2 := by
  induction ts with
  | nil => simp [pairsAfter] at h
  | cons a rest ih =>
    rw [pairsAfter] at h
    rw [List.map_cons, List.nodup_cons] at hnd
    rcases List.mem_append.mp h with h | h
    · simp only [List.mem_map, List.mem_filter] at h
      obtain ⟨b, ⟨hbr, -⟩, rfl⟩ := h
      intro heq
      simp only at heq
      exact hnd.1 (heq ▸ List.mem_map.mpr ⟨b, hbr, rfl⟩)
    · exact ih hnd.2 h

/-- A duplicate-free list counts every element at most once (stated over
the `BEq` instance that appears in the goal, to avoid instance clashes). -/
theorem count_le_one_of_nodup {α : Type} [BEq α] [LawfulBEq α] {l : List α}
    (h : l.Nodup) (a : α) : l.count a ≤ 1 := by
  induction l with
  | nil => simp [List.count_nil]
  | cons b rest ih =>
    rcases List.nodup_cons.mp h with ⟨hnb, hrest⟩
    rw [List.count_cons]
    by_cases hab : a = b
    · subst hab
      have hz : rest.count a = 0 := List.count_eq_zero.mpr hnb
      simp [hz]
    · have hbeq : (b == a) = false := beq_eq_false_iff_ne.mpr (Ne.symm hab)
      have hle := ih hrest
      simp only [hbeq, Bool.false_eq_true, if_false]
      omega

/-- Over a duplicate-free tank list, each unordered pair appears at most
once among the `pairsAfter` output. -/
theorem pairsAfter_count {ts : List (Ref × Rect)}
    (hnd : (ts.map Prod.fst).Nodup) (x y : Ref) :
    (pairsAfter ts).count (x, y) + (pairsAfter ts).count (y, x) ≤ 1 := by
  induction ts with
  | nil => simp [pairsAfter]
  | cons a rest ih =>
    rw [pairsAfter]
    rw [List.map_cons, List.nodup_cons] at hnd
    simp only [List.count_append]
    have hha : a.1 ∉ rest.map Prod.fst := hnd.1
    have hnd' := hnd.2
    have hcomp : ∀ z w : Ref,
        (z, w) ∈ ((rest.filter fun b => Rect.colliderect a.2 b.2).map
          fun b => (a.1, b.1)) → z = a.1 ∧ w ∈ rest.map Prod.fst := by
      intro z w hm
      simp only [List.mem_map, List.mem_filter] at hm
      obtain ⟨b, ⟨hbr, -⟩, hbe⟩ := hm
      have hz : z = a.1 := (congrArg Prod.fst hbe).symm
      have hw : w = b.1 := (congrArg Prod.snd hbe).symm
      exact ⟨hz, hw ▸ List.mem_map.mpr ⟨b, hbr, rfl⟩⟩
    have hheadnd :
        ((rest.filter fun b => Rect.colliderect a.2 b.2).map fun b => (a.1, b.1)).Nodup := by
      have hrw : ((rest.filter fun b => Rect.colliderect a.2 b.2).map fun b => (a.1, b.1)) =
          ((rest.filter fun b => Rect.colliderect a.2 b.2).map Prod.fst).map
            (fun z => (a.1, z)) := by
        rw [List.map_map]
        rfl
      rw [hrw]
      refine List.Nodup.map (fun u v huv => by simpa using huv) ?_
      exact ((List.filter_sublist rest).map Prod.fst).nodup hnd'
    have hhead_le : ∀ z w : Ref,
        ((rest.filter fun b => Rect.colliderect a.2 b.2).map fun b => (a.1, b.1)).count
          (z, w) ≤ 1 :=
      fun z w => count_le_one_of_nodup hheadnd (z, w)
    have hhead_zero : ∀ z w : Ref, z ≠ a.1 →
        ((rest.filter fun b => Rect.colliderect a.2 b.2).map fun b => (a.1, b.1)).count
          (z, w) = 0 := by
      intro z w hz
      exact List.count_eq_zero.mpr (fun hm => hz (hcomp z w hm).1)
    have hrest_zero_fst : ∀ w : Ref, (pairsAfter rest).count (a.1, w) = 0 := by
      intro w
      refine List.count_eq_zero.mpr (fun hm => ?_)
      exact hha (pairsAfter_comp_mem hm).1
    have hrest_zero_snd : ∀ z : Ref, (pairsAfter rest).count (z, a.1) = 0 := by
      intro z
      refine List.count_eq_zero.mpr (fun hm => ?_)
      exact hha (pairsAfter_comp_mem hm).2
    by_cases hx : x = a.1 <;> by_cases hy : y = a.1
    · rw [hx, hy]
      have h1 : ((rest.filter fun b => Rect.colliderect a.2 b.2).map
          fun b => (a.1, b.1)).count (a.1, a.1) = 0 := by
        refine List.count_eq_zero.mpr (fun hm => ?_)
        exact hha (hcomp a.1 a.1 hm).2
      rw [h1, hrest_zero_fst]
      simp
    · rw [hx]
      rw [hhead_zero y a.1 hy, hrest_zero_fst y, hrest_zero_snd y]
      have := hhead_le a.1 y
      omega
    · rw [hy]
      rw [hhead_zero x a.1 hx, hrest_zero_snd x, hrest_zero_fst x]
      have := hhead_le a.1 x
      omega
    · rw [hhead_zero x y hx, hhead_zero y x hy]
      have := ih hnd'
      omega

/-- The tank-vs-impassable-tile sweep emits pairs whose second component is
an impassable tile. -/
theorem tanksVsTiles_shape {ts : List (Ref × Rect)} {it : List (ℕ × Rect)}
    {p : Ref × Ref}
    (h : p ∈ ts.flatMap fun t =>
      (it.filter fun b => Rect.colliderect t.2 b.2).map
        fun b => (t.1, Ref.impassableTile b.1)) :
    ∃ j, p.2 = Ref.impassableTile j := by
  simp only [List.mem_flatMap, List.mem_map, List.mem_filter] at h
  obtain ⟨t, -, b, -, rfl⟩ := h
  exact ⟨b.1, rfl⟩

/-- The references in `all_tanks` are the player tank or enemy tanks. -/
theorem allTanks_fst_shape {pt : Option Rect} {etk : List (ℕ × Rect)} {z : Ref}
    (h : z ∈ (allTanks pt etk).map Prod.fst) :
    z = Ref.playerTank ∨ ∃ i, z = Ref.enemyTank i := by
  cases pt with
  | none =>
    simp only [allTanks, List.nil_append, List.map_map, List.mem_map] at h
    obtain ⟨e, -, rfl⟩ := h
    exact Or.inr ⟨e.1, rfl⟩
  | some r =>
    simp only [allTanks, List.cons_append, List.nil_append, List.map_cons,
      List.map_map, List.mem_cons, List.mem_map] at h
    rcases h with h | ⟨e, -, rfl⟩
    · exact Or.inl h
    · exact Or.inr ⟨e.1, rfl⟩

/-- Duplicate-free enemy ids give a duplicate-free `all_tanks` reference
list. -/
theorem allTanks_fst_nodup (pt : Option Rect) (etk : List (ℕ × Rect))
    (hnd : (etk.map Prod.fst).Nodup) : ((allTanks pt etk).map Prod.fst).Nodup := by
  have henemy : ((etk.map fun e => (Ref.enemyTank e.1, e.2)).map Prod.fst).Nodup := by
    rw [List.map_map]
    have h1 : (Prod.fst ∘ fun e : ℕ × Rect => (Ref.enemyTank e.1, e.2)) =
        Ref.enemyTank ∘ Prod.fst := rfl
    rw [h1, ← List.map_map]
    exact hnd.map (fun u v huv => by simpa using huv)
  cases pt with
  | none => simpa [allTanks] using henemy
  | some r =>
    simp only [allTanks, List.cons_append, List.nil_append, List.map_cons]
    refine List.nodup_cons.mpr ⟨?_, henemy⟩
    intro hmem
    simp only [List.map_map, List.mem_map] at hmem
    obtain ⟨e, -, he⟩ := hmem
    exact Ref.noConfusion he

/-- Every event `check_collisions` emits has one of the ten pairing
shapes. -/
theorem check_collisions_mem_cases (pt : Option Rect)
    (pb etk eb dt it : List (ℕ × Rect)) (base : Option Rect) {p : Ref × Ref}
    (hp : p ∈ CollisionManager.check_collisions pt pb etk eb dt it base) :
    (∃ i j, p = (Ref.playerBullet i, Ref.enemyTank j)) ∨
    (∃ i j, p = (Ref.playerBullet i, Ref.destructibleTile j)) ∨
    (∃ i j, p = (Ref.playerBullet i, Ref.enemyBullet j)) ∨
    (∃ i j, p = (Ref.playerBullet i, Ref.impassableTile j)) ∨
    (∃ i, p = (Ref.enemyBullet i, Ref.playerBase)) ∨
    (∃ i, p = (Ref.enemyBullet i, Ref.playerTank)) ∨
    (∃ i j, p = (Ref.enemyBullet i, Ref.destructibleTile j)) ∨
    (∃ i j, p = (Ref.enemyBullet i, Ref.impassableTile j)) ∨
    (∃ j, p.2 = Ref.impassableTile j) ∨
    p ∈ pairsAfter (allTanks pt etk) := by
  unfold CollisionManager.check_collisions at hp
  dsimp only at hp
  simp only [List.mem_append] at hp
  rcases hp with ((((((((h | h) | h) | h) | h) | h) | h) | h) | h) | h
  · exact Or.inl (crossPairs_shape h)
  · exact Or.inr (Or.inl (crossPairs_shape h))
  · exact Or.inr (Or.inr (Or.inl (crossPairs_shape h)))
  · exact Or.inr (Or.inr (Or.inr (Or.inl (crossPairs_shape h))))
  · exact Or.inr (Or.inr (Or.inr (Or.inr (Or.inl (bulletsVsTarget_shape h)))))
  · exact Or.inr (Or.inr (Or.inr (Or.inr (Or.inr (Or.inl (bulletsVsTarget_shape h))))))
  · exact Or.inr (Or.inr (Or.inr (Or.inr (Or.inr (Or.inr (Or.inl
      (crossPairs_shape h)))))))
  · exact Or.inr (Or.inr (Or.inr (Or.inr (Or.inr (Or.inr (Or.inr (Or.inl
      (crossPairs_shape h))))))))
  · exact Or.inr (Or.inr (Or.inr (Or.inr (Or.inr (Or.inr (Or.inr (Or.inr (Or.inl
      (tanksVsTiles_shape h)))))))))
  · exact Or.inr (Or.inr (Or.inr (Or.inr (Or.inr (Or.inr (Or.inr (Or.inr (Or.inr
      h))))))))

/-- C5: `check_collisions` never emits a pair of two enemy bullets nor a
pair of an enemy bullet with an enemy tank (in either order) — those
pairings are simply absent from the hand-enumerated list; and, provided the
enemy tank ids are duplicate-free, the tanks-vs-tanks sweep never pairs a
tank with itself and emits each unordered tank pair at most once. -/
theorem C5_check_collisions_pairings (pt : Option Rect)
    (pb etk eb dt it : List (ℕ × Rect)) (base : Option Rect)
    (hnd : (etk.map Prod.fst).Nodup) :
    (∀ p ∈ CollisionManager.check_collisions pt pb etk eb dt it base,
      ¬ (Ref.isEnemyBulletRef p.1 = true ∧ Ref.isEnemyBulletRef p.2 = true)) ∧
    (∀ p ∈ CollisionManager.check_collisions pt pb etk eb dt it base,
      ¬ (Ref.isEnemyBulletRef p.1 = true ∧ Ref.isEnemyTankRef p.2 = true) ∧
      ¬ (Ref.isEnemyTankRef p.1 = true ∧ Ref.isEnemyBulletRef p.2 = true)) ∧
    (∀ p ∈ CollisionManager.check_collisions pt pb etk eb dt it base,
      Ref.isTankRef p.1 = true → Ref.isTankRef p.2 = true → p.1 ≠ p.2) ∧
    (∀ x y : Ref, Ref.isTankRef x = true → Ref.isTankRef y = true →
      (CollisionManager.check_collisions pt pb etk eb dt it base).count (x, y) +
        (CollisionManager.check_collisions pt pb etk eb dt it base).count (y, x) ≤ 1) := by
  have htankshape : ∀ z : Ref, z ∈ (allTanks pt etk).map Prod.fst →
      Ref.isEnemyBulletRef z = false ∧ Ref.isTankRef z = true := by
    intro z hz
    rcases allTanks_fst_shape hz with rfl | ⟨i, rfl⟩ <;> exact ⟨rfl, rfl⟩
  refine ⟨?_, ?_, ?_, ?_⟩
  · intro p hp
    rcases check_collisions_mem_cases pt pb etk eb dt it base hp with
      ⟨i, j, rfl⟩ | ⟨i, j, rfl⟩ | ⟨i, j, rfl⟩ | ⟨i, j, rfl⟩ | ⟨i, rfl⟩ | ⟨i, rfl⟩ |
      ⟨i, j, rfl⟩ | ⟨i, j, rfl⟩ | ⟨j, h2⟩ | h10
    · rintro ⟨h1, -⟩; exact Bool.noConfusion h1
    · rintro ⟨h1, -⟩; exact Bool.noConfusion h1
    · rintro ⟨h1, -⟩; exact Bool.noConfusion h1
    · rintro ⟨h1, -⟩; exact Bool.noConfusion h1
    · rintro ⟨-, h2⟩; exact Bool.noConfusion h2
    · rintro ⟨-, h2⟩; exact Bool.noConfusion h2
    · rintro ⟨-, h2⟩; exact Bool.noConfusion h2
    · rintro ⟨-, h2⟩; exact Bool.noConfusion h2
    · rintro ⟨-, hb⟩
      rw [h2] at hb
      exact Bool.noConfusion hb
    · rintro ⟨h1, -⟩
      have := (htankshape p.1 (pairsAfter_comp_mem h10).1).1
      rw [this] at h1
      exact Bool.noConfusion h1
  · intro p hp
    rcases check_collisions_mem_cases pt pb etk eb dt it base hp with
      ⟨i, j, rfl⟩ | ⟨i, j, rfl⟩ | ⟨i, j, rfl⟩ | ⟨i, j, rfl⟩ | ⟨i, rfl⟩ | ⟨i, rfl⟩ |
      ⟨i, j, rfl⟩ | ⟨i, j, rfl⟩ | ⟨j, h2⟩ | h10
    · exact ⟨fun h => Bool.noConfusion h.1, fun h => Bool.noConfusion h.1⟩
    · exact ⟨fun h => Bool.noConfusion h.1, fun h => Bool.noConfusion h.1⟩
    · exact ⟨fun h => Bool.noConfusion h.1, fun h => Bool.noConfusion h.1⟩
    · exact ⟨fun h => Bool.noConfusion h.1, fun h => Bool.noConfusion h.1⟩
    · exact ⟨fun h => Bool.noConfusion h.2, fun h => Bool.noConfusion h.1⟩
    · exact ⟨fun h => Bool.noConfusion h.2, fun h => Bool.noConfusion h.1⟩
    · exact ⟨fun h => Bool.noConfusion h.2, fun h => Bool.noConfusion h.1⟩
    · exact ⟨fun h => Bool.noConfusion h.2, fun h => Bool.noConfusion h.1⟩
    · constructor <;> rintro ⟨ha, hb⟩ <;> rw [h2] at hb <;> exact Bool.noConfusion hb
    · have h1 := (htankshape p.1 (pairsAfter_comp_mem h10).1).1
      have hb2 := (htankshape p.2 (pairsAfter_comp_mem h10).2).1
      constructor
      · rintro ⟨ha, -⟩
        rw [h1] at ha
        exact Bool.noConfusion ha
      · rintro ⟨-, hb⟩
        rw [hb2] at hb
        exact Bool.noConfusion hb
  · intro p hp hx hy
    rcases check_collisions_mem_cases pt pb etk eb dt it base hp with
      ⟨i, j, rfl⟩ | ⟨i, j, rfl⟩ | ⟨i, j, rfl⟩ | ⟨i, j, rfl⟩ | ⟨i, rfl⟩ | ⟨i, rfl⟩ |
      ⟨i, j, rfl⟩ | ⟨i, j, rfl⟩ | ⟨j, h2⟩ | h10
    · exact Bool.noConfusion hx
    · exact Bool.noConfusion hx
    · exact Bool.noConfusion hx
    · exact Bool.noConfusion hx
    · exact Bool.noConfusion hx
    · exact Bool.noConfusion hx
    · exact Bool.noConfusion hx
    · exact Bool.noConfusion hx
    · rw [h2] at hy
      exact Bool.noConfusion hy
    · exact pairsAfter_ne (allTanks_fst_nodup pt etk hnd) h10
  · intro x y hx hy
    have hzero : ∀ l : List (Ref × Ref),
        (∀ q ∈ l, Ref.isTankRef q.1 = false ∨ Ref.isTankRef q.2 = false) →
        l.count (x, y) = 0 ∧ l.count (y, x) = 0 := by
      intro l hl
      constructor <;> refine List.count_eq_zero.mpr (fun hm => ?_) <;>
        rcases hl _ hm with h | h <;> simp only at h <;> simp_all
    have hc1 := hzero (crossPairs Ref.playerBullet Ref.enemyTank pb etk)
      (fun q hq => by obtain ⟨i, j, rfl⟩ := crossPairs_shape hq; exact Or.inl rfl)
    have hc2 := hzero (crossPairs Ref.playerBullet Ref.destructibleTile pb dt)
      (fun q hq => by obtain ⟨i, j, rfl⟩ := crossPairs_shape hq; exact Or.inl rfl)
    have hc3 := hzero (crossPairs Ref.playerBullet Ref.enemyBullet pb eb)
      (fun q hq => by obtain ⟨i, j, rfl⟩ := crossPairs_shape hq; exact Or.inl rfl)
    have hc4 := hzero (crossPairs Ref.playerBullet Ref.impassableTile pb it)
      (fun q hq => by obtain ⟨i, j, rfl⟩ := crossPairs_shape hq; exact Or.inl rfl)
    have hc5 := hzero (bulletsVsTarget Ref.enemyBullet Ref.playerBase eb base)
      (fun q hq => by obtain ⟨i, rfl⟩ := bulletsVsTarget_shape hq; exact Or.inl rfl)
    have hc6 := hzero (bulletsVsTarget Ref.enemyBullet Ref.playerTank eb pt)
      (fun q hq => by obtain ⟨i, rfl⟩ := bulletsVsTarget_shape hq; exact Or.inl rfl)
    have hc7 := hzero (crossPairs Ref.enemyBullet Ref.destructibleTile eb dt)
      (fun q hq => by obtain ⟨i, j, rfl⟩ := crossPairs_shape hq; exact Or.inl rfl)
    have hc8 := hzero (crossPairs Ref.enemyBullet Ref.impassableTile eb it)
      (fun q hq => by obtain ⟨i, j, rfl⟩ := crossPairs_shape hq; exact Or.inl rfl)
    have hc9 := hzero ((allTanks pt etk).flatMap fun t =>
        (it.filter fun b => Rect.colliderect t.2 b.2).map
          fun b => (t.1, Ref.impassableTile b.1))
      (fun q hq => by obtain ⟨j, hj⟩ := tanksVsTiles_shape hq; right; rw [hj]; rfl)
    have hc10 := pairsAfter_count (allTanks_fst_nodup pt etk hnd) x y
    unfold CollisionManager.check_collisions
    dsimp only
    simp only [List.count_append]
    omega

/-- Witness for C5: a concrete scene — the player tank overlapping two
distinct enemy tanks — yields at most one unordered player-vs-enemy-0
pair. -/
theorem C5_check_collisions_pairings_witness :
    (CollisionManager.check_collisions (some ⟨0, 0, 32, 32⟩) []
        [(0, ⟨16, 0, 32, 32⟩), (1, ⟨0, 16, 32, 32⟩)] [] [] [] none).count
      (Ref.playerTank, Ref.enemyTank 0) +
    (CollisionManager.check_collisions (some ⟨0, 0, 32, 32⟩) []
        [(0, ⟨16, 0, 32, 32⟩), (1, ⟨0, 16, 32, 32⟩)] [] [] [] none).count
      (Ref.enemyTank 0, Ref.playerTank) ≤ 1 :=
  (C5_check_collisions_pairings (some ⟨0, 0, 32, 32⟩) []
    [(0, ⟨16, 0, 32, 32⟩), (1, ⟨0, 16, 32, 32⟩)] [] [] [] none
    (by decide)).2.2.2 Ref.playerTank (Ref.enemyTank 0) rfl rfl

end BattleCity
